import Mathlib

/-!
Verification of the lemurs login manager's core against its source.

Embedded components:
* the IPC handshake (`src/ipc.rs`): the one-byte message codec,
  `IncomingSocket::block_handle` and `send_for_logout`;
* the session supervisor (`src/post_login/mod.rs` together with
  `src/tty.rs`): `PostLoginEnvironment::start`;
* the login workflow (`src/ui/mod.rs`): `InputMode`, the `login` task and
  the foreground loop's channel polling in `run_app`.

Effects of the surrounding OS (socket reads, process spawns, process kills,
terminal switches) are supplied by explicit environment records; each
embedded function consumes the outcomes the OS would have produced and
mirrors the Rust control flow over them.
-/

deriving instance DecidableEq for Except

namespace Lemurs

/-- An `std::io::Error`, keeping only the structure the code branches on:
the timeout kind (`WouldBlock`/`TimedOut`), the permission kind
(`PermissionDenied`, distinguished by `main.rs`), and everything else. -/
inductive IOErr
  | timedOut
  | permissionDenied
  | other (msg : String)
  deriving DecidableEq, Repr

/-- `IpcRequest` (src/ipc.rs:114-117): the two wire messages. -/
inductive IpcRequest
  | logout
  | ack
  deriving DecidableEq, Repr

/-- `impl From<IpcRequest> for u8` (src/ipc.rs:119-128): the one-byte
encoding, `Logout ↦ 0`, `Ack ↦ 1`. -/
def IpcRequest.toByte : IpcRequest → Nat
  | .logout => 0
  | .ack => 1

/-- `impl TryFrom<u8> for IpcRequest` (src/ipc.rs:130-142): decoding a byte,
failing (with the unit error type) on any byte other than 0 or 1. -/
def IpcRequest.tryFromByte : Nat → Except Unit IpcRequest
  | 0 => .ok .logout
  | 1 => .ok .ack
  | _ => .error ()

/-- Outcome of `socket.read(&mut buf)` on one accepted connection in
`block_handle`: an I/O error, or `Ok n` together with the byte left in
`buf[0]` (src/ipc.rs:57). -/
inductive ReadOutcome
  | readErr (e : IOErr)
  | bytes (n : Nat) (b : Nat)
  deriving DecidableEq, Repr

/-- One iteration's worth of input to `block_handle`'s `for socket in
self.listener.incoming()` loop: either the accept itself failed
(src/ipc.rs:96), or a connection arrived with a given read outcome.
`effect` is the result the handler's own side effect (for the supervisor's
handler, `message_to_outbox(Ack)`) would produce if the handler runs on
this connection. -/
inductive ConnEvent
  | acceptFail (e : IOErr)
  | conn (r : ReadOutcome) (effect : Except IOErr Unit)
  deriving DecidableEq, Repr

/-- Whether `block_handle` has returned (`stopped`) or is still blocked
waiting for further connections (`pending`) after consuming a finite prefix
of the listener's event stream.  The real `incoming()` iterator never
terminates, so the only way the Rust loop is exited is the
`return Ok(())` on a handler result of `Ok(true)` (src/ipc.rs:64). -/
inductive BlockOutcome
  | stopped
  | pending
  deriving DecidableEq, Repr

/-- `IncomingSocket::block_handle` (src/ipc.rs:45-108) over a finite prefix
of the incoming-connection event stream.  Accept failures, read failures,
wrong-sized reads, undecodable bytes and handler errors are each logged and
absorbed, the loop continuing; a handler result of `Ok(true)` makes the
function return `Ok(())` (here: `.ok .stopped`). -/
def blockHandle (handler : IpcRequest → Except IOErr Unit → Except IOErr Bool) :
    List ConnEvent → Except IOErr BlockOutcome
  | [] => .ok .pending
  | e :: rest =>
    match e with
    | .acceptFail _ => blockHandle handler rest
    | .conn r effect =>
      match r with
      | .readErr _ => blockHandle handler rest
      | .bytes n b =>
        if n = 1 then
          match IpcRequest.tryFromByte b with
          | .ok req =>
            match handler req effect with
            | .ok true => .ok .stopped
            | .ok false => blockHandle handler rest
            | .error _ => blockHandle handler rest
          | .error _ => blockHandle handler rest
        else blockHandle handler rest

/-- The handler closure the supervisor passes to `block_handle`
(src/post_login/mod.rs:63-71): on `Logout`, send `Ack` to the outbox
(propagating its failure with `?`) and stop; on any other message,
continue.  `ackSend` is the outcome `message_to_outbox(IpcRequest::Ack)`
would produce on this invocation. -/
def logoutHandler (request : IpcRequest) (ackSend : Except IOErr Unit) :
    Except IOErr Bool :=
  match request with
  | .logout => ackSend.map fun _ => true
  | _ => .ok false

/-- The events on which `block_handle logoutHandler` stops: a successful
accept whose read yields exactly one byte, that byte decodes to `Logout`,
and the `Ack` reply succeeds. -/
def stopsLogout : ConnEvent → Bool
  | .conn (.bytes 1 0) (.ok _) => true
  | _ => false

/-- `Except` result inspection used to state that `block_handle` is
infallible. -/
def exceptIsOk : Except IOErr BlockOutcome → Bool
  | .ok _ => true
  | .error _ => false

/-- `LOGOUT_WAIT_TIMEOUT` (src/ipc.rs:111), in milliseconds: the read
timeout `send_for_logout` installs on the accepted outbox connection via
`set_read_timeout`, `Duration::from_secs(1)`. -/
def LOGOUT_WAIT_TIMEOUT : Nat := 1000

/-- What happens at `listener.incoming().next().unwrap()` inside
`send_for_logout` (src/ipc.rs:149-150): the accept has no timeout, so
either no connection ever arrives and the call blocks forever (`noConn`),
or the accept fails (`socket?` propagates), or a connection is accepted,
carrying the outcomes of `set_read_timeout` and of the subsequent
`socket.read(&mut buf)` (the read outcome `.ok (n, b)` gives the byte
count and `buf[0]`; a peer that stays silent for `LOGOUT_WAIT_TIMEOUT`
makes the read fail with the timeout error). -/
inductive AcceptOutcome
  | noConn
  | acceptErr (e : IOErr)
  | accepted (setTimeout : Except IOErr Unit) (readRes : Except IOErr (Nat × Nat))
  deriving DecidableEq, Repr

/-- OS-supplied outcomes for one run of `send_for_logout`
(src/ipc.rs:144-169): the bind of the outbox listener, the
`message_to_inbox(Logout)` send, and the accept on the outbox. -/
structure LogoutEnv where
  bindOutbox : Except IOErr Unit
  sendInbox : Except IOErr Unit
  outboxConn : AcceptOutcome
  deriving DecidableEq, Repr

/-- Result of `send_for_logout`: `Ok(())`, `Err(e)`, or no return at all
because the accept blocks indefinitely. -/
inductive SFLOutcome
  | success
  | failure (e : IOErr)
  | blockedInAccept
  deriving DecidableEq, Repr

/-- `send_for_logout` (src/ipc.rs:144-169): bind the outbox listener, send
`Logout` to the inbox, accept one connection on the outbox, set the
one-second read timeout, read one byte and succeed exactly on a received
`Ack`. -/
def send_for_logout (env : LogoutEnv) : SFLOutcome :=
  match env.bindOutbox with
  | .error e => .failure e
  | .ok _ =>
    match env.sendInbox with
    | .error e => .failure e
    | .ok _ =>
      match env.outboxConn with
      | .noConn => .blockedInAccept
      | .acceptErr e => .failure e
      | .accepted setT readRes =>
        match setT with
        | .error e => .failure e
        | .ok _ =>
          match readRes with
          | .error e => .failure e
          | .ok (n, b) =>
            if n = 1 then
              match IpcRequest.tryFromByte b with
              | .ok .ack => .success
              | _ => .failure (.other "Expected a logout message but got a different message")
            else .failure (.other "Invalid amount of bytes received to interpret socket message")

/-- Whether a `send_for_logout` outcome is the read-timeout failure. -/
def isTimeoutFailure : SFLOutcome → Bool
  | .failure .timedOut => true
  | _ => false

/-- `PostLoginEnvironment` (src/post_login/mod.rs:18-23). -/
inductive PostLoginEnvironment
  | x (xinitrc_path : String)
  | wayland (script_path : String)
  | shell
  deriving DecidableEq, Repr

/-- `EnvironmentStartError` (src/post_login/mod.rs:25-30); the payloads of
the two X variants are reduced to the underlying I/O error. -/
inductive EnvironmentStartError
  | openInbox (e : IOErr)
  | handleLogout (e : IOErr)
  | xSetupError (e : IOErr)
  | xStartEnvError (e : IOErr)
  deriving DecidableEq, Repr

/-- Observable steps taken by `PostLoginEnvironment::start`, in order:
environment-variable setup, inbox bind, display-server and desktop starts,
the terminal switch and the two kills (each recording whether the
underlying OS call succeeded — its failure is only logged), and the final
`drop(user_info)` that discards the credentials. -/
inductive SupEvent
  | setEnvVars
  | setXdgVars
  | bindInbox
  | startXServer
  | startDesktop
  | switchTTY (tty : Nat) (ok : Bool)
  | killDesktop (ok : Bool)
  | killXServer (ok : Bool)
  | dropUserInfo
  deriving DecidableEq, Repr

/-- OS-supplied outcomes for one run of `PostLoginEnvironment::start` on an
X session: the `IncomingSocket::new` bind, `x::setup_x`, `x::start_env`,
the stream of events reaching `block_handle` on the inbox, the
`chvt::chvt` call inside `switch_to_lemurs_tty`, and the two `kill` calls. -/
structure StartEnv where
  bindInbox : Except IOErr Unit
  setupX : Except IOErr Unit
  startGuiEnv : Except IOErr Unit
  inboxEvents : List ConnEvent
  chvtOk : Bool
  killGuiOk : Bool
  killXOk : Bool
  deriving DecidableEq, Repr

/-- How a run of `PostLoginEnvironment::start` ends: it returns a
`Result`, it is still blocked inside `block_handle` waiting for a logout
request, or it hit the `unimplemented!()` panic of the non-X variants. -/
inductive StartOutcome
  | returned (r : Except EnvironmentStartError Unit)
  | blockedWaiting
  | panicUnimplemented
  deriving DecidableEq, Repr

/-- `PostLoginEnvironment::start` (src/post_login/mod.rs:33-96): set the
environment variables, then for the X variant bind the inbox, start the X
server, start the desktop (each failure returned immediately with its
distinct error), block on `block_handle` with the logout handler, and on
its return switch the tty back, kill the desktop, kill the X server (kill
and chvt failures only logged) and drop the credentials.  The returned
list is the trace of steps actually performed. -/
def PostLoginEnvironment.start (self : PostLoginEnvironment) (tty : Nat)
    (env : StartEnv) : List SupEvent × StartOutcome :=
  let trace := [SupEvent.setEnvVars, SupEvent.setXdgVars]
  match self with
  | .x _ =>
    match env.bindInbox with
    | .error e => (trace, .returned (.error (.openInbox e)))
    | .ok _ =>
      let trace := trace ++ [SupEvent.bindInbox]
      match env.setupX with
      | .error e => (trace, .returned (.error (.xSetupError e)))
      | .ok _ =>
        let trace := trace ++ [SupEvent.startXServer]
        match env.startGuiEnv with
        | .error e => (trace, .returned (.error (.xStartEnvError e)))
        | .ok _ =>
          let trace := trace ++ [SupEvent.startDesktop]
          match blockHandle logoutHandler env.inboxEvents with
          | .error e => (trace, .returned (.error (.handleLogout e)))
          | .ok .pending => (trace, .blockedWaiting)
          | .ok .stopped =>
            (trace ++ [SupEvent.switchTTY tty env.chvtOk,
                       SupEvent.killDesktop env.killGuiOk,
                       SupEvent.killXServer env.killXOk,
                       SupEvent.dropUserInfo],
             .returned (.ok ()))
  | _ => (trace, .panicUnimplemented)

/-- Whether a supervisor trace event is the display server's stop
(`x_server.kill()`, src/post_login/mod.rs:85). -/
def isKillXServerEvent : SupEvent → Bool
  | .killXServer _ => true
  | _ => false

/-- Whether a start outcome is the `HandleLogout` error return. -/
def isHandleLogoutError : StartOutcome → Bool
  | .returned (.error (.handleLogout _)) => true
  | _ => false

/-- `InputMode` (src/ui/mod.rs:54-59). -/
inductive InputMode
  | wMSelect
  | username
  | password
  | normal
  deriving DecidableEq, Repr

/-- `InputMode::next` (src/ui/mod.rs:62-71), the forward focus move. -/
def InputMode.next : InputMode → InputMode
  | .normal => .wMSelect
  | .wMSelect => .username
  | .username => .password
  | .password => .password

/-- `InputMode::prev` (src/ui/mod.rs:73-82), the backward focus move. -/
def InputMode.prev : InputMode → InputMode
  | .normal => .normal
  | .wMSelect => .normal
  | .username => .wMSelect
  | .password => .username

/-- `StatusMessage` (src/ui/mod.rs:35-41); the `PamError` payload is kept
as its message. -/
inductive StatusMessage
  | pamError (e : String)
  | authenticating
  | loggingIn
  | failedGraphicalEnvironment
  | failedDesktop
  deriving DecidableEq, Repr

/-- Whether a value sent on the status channel ends the `login` task: the
task returns right after sending `PamError`, `FailedGraphicalEnvironment`
or `FailedDesktop`, and sends nothing after the clearing `None`
(src/ui/mod.rs:286-318). -/
def isTerminalStatus : Option StatusMessage → Bool
  | some (.pamError _) => true
  | some .failedGraphicalEnvironment => true
  | some .failedDesktop => true
  | none => true
  | some .authenticating => false
  | some .loggingIn => false

/-- Collaborator outcomes for one run of the `login` task
(src/ui/mod.rs:271-327): `pam::open_session`,
`graphical_environment.start` and `graphical_environment.desktop`. -/
structure LoginEnv where
  openSession : Except String Unit
  startX : Except String Unit
  startDesktop : Except String Unit
  deriving DecidableEq, Repr

/-- `login` (src/ui/mod.rs:271-327) as the sequence of values it sends on
the status channel: `Authenticating` first; on authentication failure
`PamError` and return; otherwise `LoggingIn`, then on a display-server
failure `FailedGraphicalEnvironment` and return, on a desktop failure
`FailedDesktop` and return, and on full completion the clearing `None`. -/
def login (env : LoginEnv) : List (Option StatusMessage) :=
  some StatusMessage.authenticating ::
    match env.openSession with
    | .error e => [some (StatusMessage.pamError e)]
    | .ok _ =>
      some StatusMessage.loggingIn ::
        match env.startX with
        | .error _ => [some StatusMessage.failedGraphicalEnvironment]
        | .ok _ =>
          match env.startDesktop with
          | .error _ => [some StatusMessage.failedDesktop]
          | .ok _ => [none]

/-- The part of `App` the foreground loop's channel poll touches
(src/ui/mod.rs:86-106): whether `auth_receiver` currently holds a
consumer handle, and the displayed `status_message`. -/
structure AppChannelState where
  hasAuthReceiver : Bool
  statusMessage : Option StatusMessage
  deriving DecidableEq, Repr

/-- What `rcv.try_recv()` can report: a received value (itself an
`Option<StatusMessage>`, `None` meaning Cleared), an empty channel, or a
closed channel (`TryRecvError::Disconnected`). -/
inductive TryRecvResult
  | received (m : Option StatusMessage)
  | empty
  | disconnected
  deriving DecidableEq, Repr

/-- The channel-polling step at the top of each `run_app` iteration
(src/ui/mod.rs:150-158): if a receiver is held, `try_recv`; only on an
`Ok` result is anything done — the receiver is dropped when the received
value `is_none()`, and the status message is replaced by the received
value.  `Err` results (empty or disconnected) fall through the
`if let Ok(..)` and leave the state unchanged. -/
def pollAuthReceiver (app : AppChannelState) (res : TryRecvResult) :
    AppChannelState :=
  if app.hasAuthReceiver then
    match res with
    | .received m =>
      let app := if m.isNone then { app with hasAuthReceiver := false } else app
      { app with statusMessage := m }
    | .empty => app
    | .disconnected => app
  else app

/-- `WindowManager` (src/ui/window_manager_selector.rs), as used at the
submission site: only its `initrc_path` is read. -/
structure WindowManager where
  initrc_path : String
  deriving DecidableEq, Repr

/-- What the Enter-at-Password branch of `run_app` does next. -/
inductive SubmitAction
  | spawnLoginTask (username password initrc_path : String)
  | panicOnUnwrap
  deriving DecidableEq, Repr

/-- The credential-submission branch of `run_app`
(src/ui/mod.rs:164-186): on Enter in Password focus, take the username and
password, map the selector's current selection to its `initrc_path` and
`unwrap()` it — panicking if no entry is selected — then spawn the login
task. -/
def enterAtPassword (username password : String)
    (selected : Option WindowManager) : SubmitAction :=
  match selected.map fun wm => wm.initrc_path with
  | some p => .spawnLoginTask username password p
  | none => .panicOnUnwrap

theorem blockHandle_logout_cons (e : ConnEvent) (rest : List ConnEvent) :
    blockHandle logoutHandler (e :: rest) =
      if stopsLogout e then Except.ok BlockOutcome.stopped
      else blockHandle logoutHandler rest := by
  cases e with
  | acceptFail err => simp [blockHandle, stopsLogout]
  | conn r effect =>
    cases r with
    | readErr err => simp [blockHandle, stopsLogout]
    | bytes n b =>
      match n, b with
      | 0, b => simp [blockHandle, stopsLogout]
      | 1, 0 =>
        cases effect with
        | ok u =>
          simp [blockHandle, stopsLogout, logoutHandler, IpcRequest.tryFromByte,
            Except.map]
        | error err =>
          simp [blockHandle, stopsLogout, logoutHandler, IpcRequest.tryFromByte,
            Except.map]
      | 1, 1 =>
        simp [blockHandle, stopsLogout, logoutHandler, IpcRequest.tryFromByte]
      | 1, b + 2 =>
        simp [blockHandle, stopsLogout, IpcRequest.tryFromByte]
      | n + 2, b => simp [blockHandle, stopsLogout]

theorem blockHandle_logout_eval (events : List ConnEvent) :
    blockHandle logoutHandler events =
      .ok (if events.any stopsLogout then BlockOutcome.stopped
           else BlockOutcome.pending) := by
  induction events with
  | nil => rfl
  | cons e rest ih =>
    rw [blockHandle_logout_cons, List.any_cons]
    cases h : stopsLogout e with
    | true => simp [h]
    | false => simp [h, ih]

theorem blockHandle_isOk
    (handler : IpcRequest → Except IOErr Unit → Except IOErr Bool)
    (events : List ConnEvent) :
    exceptIsOk (blockHandle handler events) = true := by
  induction events with
  | nil => rfl
  | cons e rest ih =>
    cases e with
    | acceptFail err => simpa [blockHandle] using ih
    | conn r effect =>
      cases r with
      | readErr err => simpa [blockHandle] using ih
      | bytes n b =>
        by_cases hn : n = 1
        · subst hn
          cases htb : IpcRequest.tryFromByte b with
          | error u => simpa [blockHandle, htb] using ih
          | ok req =>
            cases hh : handler req effect with
            | error err => simpa [blockHandle, htb, hh] using ih
            | ok stopFlag =>
              cases stopFlag with
              | false => simpa [blockHandle, htb, hh] using ih
              | true => simp [blockHandle, htb, hh, exceptIsOk]
        · simpa [blockHandle, hn] using ih

/-- C2: the accept loop with the supervisor's logout-acknowledging handler
returns exactly when an accepted connection's read yields the one-byte
`Logout` message and the `Ack` reply succeeds; after any finite stream of
failed accepts, failed or wrong-sized reads, undecodable bytes, non-Logout
messages, or Logout messages whose acknowledgement failed, it is still
blocked and has not returned. -/
theorem blockHandle_logout_stops_iff (events : List ConnEvent) :
    (blockHandle logoutHandler events = .ok .stopped ↔
      ∃ e ∈ events, stopsLogout e = true) ∧
    ((∀ e ∈ events, stopsLogout e = false) →
      blockHandle logoutHandler events = .ok .pending) := by
  constructor
  · rw [blockHandle_logout_eval]
    cases h : events.any stopsLogout with
    | true =>
      have hex := List.any_eq_true.mp h
      constructor
      · intro _
        simpa using hex
      · intro _
        rfl
    | false =>
      constructor
      · intro hc
        exact absurd hc (by decide)
      · intro hex
        have hc : events.any stopsLogout = true :=
          List.any_eq_true.mpr (by simpa using hex)
        rw [h] at hc
        cases hc
  · intro hall
    rw [blockHandle_logout_eval]
    have h : events.any stopsLogout = false := by
      rw [List.any_eq_false]
      intro e he
      simp [hall e he]
    rw [h]
    rfl

/-- Witness for C2: a stream of one failed accept, one failed read, one
zero-byte read, one undecodable byte, one `Ack` message and one `Logout`
whose acknowledgement failed leaves the loop blocked; appending a `Logout`
that is acknowledged makes it return. -/
theorem blockHandle_logout_stops_iff_witness :
    blockHandle logoutHandler
        [ConnEvent.acceptFail (.other "accept failed"),
         ConnEvent.conn (.readErr (.other "read failed")) (.ok ()),
         ConnEvent.conn (.bytes 0 0) (.ok ()),
         ConnEvent.conn (.bytes 1 7) (.ok ()),
         ConnEvent.conn (.bytes 1 1) (.ok ()),
         ConnEvent.conn (.bytes 1 0) (.error (.other "outbox gone"))] =
      .ok .pending ∧
    blockHandle logoutHandler
        [ConnEvent.acceptFail (.other "accept failed"),
         ConnEvent.conn (.bytes 1 1) (.ok ()),
         ConnEvent.conn (.bytes 1 0) (.ok ())] =
      .ok .stopped :=
  ⟨(blockHandle_logout_stops_iff _).2 (by decide),
   (blockHandle_logout_stops_iff _).1.mpr
     ⟨ConnEvent.conn (.bytes 1 0) (.ok ()), by decide, by decide⟩⟩

/-- C9: `block_handle` absorbs every accept failure, read failure,
malformed message and handler error, so it never returns an error value
for any handler and any event stream; consequently no run of
`PostLoginEnvironment::start` can return the `HandleLogout` error. -/
theorem blockHandle_infallible_no_handleLogout :
    (∀ (handler : IpcRequest → Except IOErr Unit → Except IOErr Bool)
        (events : List ConnEvent),
      exceptIsOk (blockHandle handler events) = true) ∧
    (∀ (self : PostLoginEnvironment) (tty : Nat) (env : StartEnv),
      isHandleLogoutError (PostLoginEnvironment.start self tty env).2 = false) := by
  refine ⟨blockHandle_isOk, ?_⟩
  intro self tty env
  rcases env with ⟨bi, sx, sg, evs, c, kg, kx⟩
  cases self with
  | wayland p => rfl
  | shell => rfl
  | x p =>
    cases bi with
    | error e => rfl
    | ok u =>
      cases sx with
      | error e => rfl
      | ok u2 =>
        cases sg with
        | error e => rfl
        | ok u3 =>
          have heval := blockHandle_logout_eval evs
          cases h : evs.any stopsLogout with
          | true =>
            simp [PostLoginEnvironment.start, heval, h, isHandleLogoutError]
          | false =>
            simp [PostLoginEnvironment.start, heval, h, isHandleLogoutError]

/-- C4: the one-byte wire codec round-trips — `Logout` encodes to 0 and
`Ack` to 1, each decoding back to itself — and every byte other than 0 or 1
fails to decode, with the protocol error. -/
theorem ipc_codec_roundtrip :
    IpcRequest.tryFromByte (IpcRequest.toByte .logout) = .ok .logout ∧
    IpcRequest.tryFromByte (IpcRequest.toByte .ack) = .ok .ack ∧
    IpcRequest.toByte .logout = 0 ∧
    IpcRequest.toByte .ack = 1 ∧
    ∀ b : Nat, b ≠ 0 → b ≠ 1 → IpcRequest.tryFromByte b = .error () := by
  refine ⟨rfl, rfl, rfl, rfl, ?_⟩
  intro b h0 h1
  match b with
  | 0 => exact absurd rfl h0
  | 1 => exact absurd rfl h1
  | b + 2 => rfl

/-- Witness for C4: byte 7 fails to decode. -/
theorem ipc_codec_roundtrip_witness : IpcRequest.tryFromByte 7 = .error () :=
  ipc_codec_roundtrip.2.2.2.2 7 (by decide) (by decide)

/-- C5: the input-focus transitions — forward order Normal → WMSelect →
Username → Password with Password absorbing, backward its exact reverse
with Normal absorbing; three forward moves from Normal reach Password and
three backward moves from Password reach Normal. -/
theorem input_mode_transitions :
    InputMode.next .normal = .wMSelect ∧
    InputMode.next .wMSelect = .username ∧
    InputMode.next .username = .password ∧
    InputMode.next .password = .password ∧
    InputMode.prev .password = .username ∧
    InputMode.prev .username = .wMSelect ∧
    InputMode.prev .wMSelect = .normal ∧
    InputMode.prev .normal = .normal ∧
    InputMode.next (InputMode.next (InputMode.next .normal)) = .password ∧
    InputMode.prev (InputMode.prev (InputMode.prev .password)) = .normal := by
  decide

/-- C10: triggering submission from Password focus with no window-manager
entry selected hits the `unwrap()` on the selected init-script path and
panics, for every username and password; with a selection it spawns the
login task with that selection's path. -/
theorem submit_without_selection_panics :
    (∀ username password : String,
      enterAtPassword username password none = .panicOnUnwrap) ∧
    (∀ (username password : String) (wm : WindowManager),
      enterAtPassword username password (some wm) =
        .spawnLoginTask username password wm.initrc_path) :=
  ⟨fun _ _ => rfl, fun _ _ _ => rfl⟩

/-- The failing input for C1: the inbox bind and `x::setup_x` succeed and
`x::start_env` fails. -/
def envStartDesktopFail : StartEnv :=
  { bindInbox := .ok (), setupX := .ok (),
    startGuiEnv := .error (.other "failed to start initrc"),
    inboxEvents := [], chvtOk := true, killGuiOk := true, killXOk := true }

/-- C1: evaluating `PostLoginEnvironment::start` at the input where the
display server starts successfully and the desktop start fails.  The `?`
on `x::start_env` returns the `XStartEnvError` immediately; the trace of
performed steps ends at the X-server start and contains no
`x_server.kill()`, so the display server's stop is never invoked before
the failure is returned. -/
theorem start_desktop_fail_skips_x_stop :
    PostLoginEnvironment.start (.x "/etc/lemurs/wms/i3") 2 envStartDesktopFail =
      ([SupEvent.setEnvVars, SupEvent.setXdgVars, SupEvent.bindInbox,
        SupEvent.startXServer],
       .returned (.error (.xStartEnvError (.other "failed to start initrc")))) ∧
    (PostLoginEnvironment.start (.x "/etc/lemurs/wms/i3") 2
        envStartDesktopFail).1.any isKillXServerEvent = false := ⟨rfl, rfl⟩

/-- The input refuting C3 as stated: the outbox bind and the `Logout` send
succeed, but the supervisor never connects back to the outbox. -/
def envLogoutNoResponse : LogoutEnv :=
  { bindOutbox := .ok (), sendInbox := .ok (), outboxConn := .noConn }

/-- C3 counterexample: against a supervisor that never responds — never
connects back to the outbox — `send_for_logout` does not return a timeout
failure; it blocks indefinitely in `listener.incoming().next()`, which has
no timeout. -/
theorem send_for_logout_no_response_blocks :
    send_for_logout envLogoutNoResponse = .blockedInAccept ∧
    isTimeoutFailure (send_for_logout envLogoutNoResponse) = false := ⟨rfl, rfl⟩

/-- C3 (amended): `send_for_logout` returns success exactly when its
outbox bind and the `Logout` send succeed and a connection is accepted
whose `set_read_timeout` succeeds and whose read yields exactly the
one-byte `Ack`; a supervisor that connects back but stays silent makes the
read fail with the timeout error after the configured one-second window
(`LOGOUT_WAIT_TIMEOUT`); a supervisor that never connects back makes the
call block indefinitely in the timeout-less accept. -/
theorem send_for_logout_ack_iff (env : LogoutEnv) :
    (send_for_logout env = .success ↔
      env.bindOutbox = .ok () ∧ env.sendInbox = .ok () ∧
      env.outboxConn = .accepted (.ok ()) (.ok (1, 1))) ∧
    (env.bindOutbox = .ok () → env.sendInbox = .ok () →
      env.outboxConn = .accepted (.ok ()) (.error IOErr.timedOut) →
      send_for_logout env = .failure IOErr.timedOut ∧
      isTimeoutFailure (send_for_logout env) = true) ∧
    (env.bindOutbox = .ok () → env.sendInbox = .ok () →
      env.outboxConn = .noConn →
      send_for_logout env = .blockedInAccept) ∧
    LOGOUT_WAIT_TIMEOUT = 1000 := by
  rcases env with ⟨bo, si, oc⟩
  refine ⟨?_, ?_, ?_, rfl⟩
  · cases bo with
    | error e => simp [send_for_logout]
    | ok u =>
      cases u
      cases si with
      | error e => simp [send_for_logout]
      | ok u =>
        cases u
        cases oc with
        | noConn => simp [send_for_logout]
        | acceptErr e => simp [send_for_logout]
        | accepted setT readRes =>
          cases setT with
          | error e => simp [send_for_logout]
          | ok u =>
            cases u
            cases readRes with
            | error e => simp [send_for_logout]
            | ok p =>
              obtain ⟨n, b⟩ := p
              match n, b with
              | 0, b => simp [send_for_logout]
              | 1, 0 => simp [send_for_logout, IpcRequest.tryFromByte]
              | 1, 1 => simp [send_for_logout, IpcRequest.tryFromByte]
              | 1, b + 2 =>
                simp [send_for_logout, IpcRequest.tryFromByte]
              | n + 2, b => simp [send_for_logout]
  · intro hb hs hc
    subst hc
    cases bo with
    | error e => simp at hb
    | ok u =>
      cases u
      cases si with
      | error e => simp at hs
      | ok u =>
        cases u
        exact ⟨rfl, rfl⟩
  · intro hb hs hc
    subst hc
    cases bo with
    | error e => simp at hb
    | ok u =>
      cases u
      cases si with
      | error e => simp at hs
      | ok u =>
        cases u
        rfl

/-- Witness for C3 (amended): a responding supervisor whose `Ack` arrives
yields success; one that connects back but stays silent yields the timeout
failure. -/
theorem send_for_logout_ack_iff_witness :
    send_for_logout ⟨.ok (), .ok (), .accepted (.ok ()) (.ok (1, 1))⟩ =
      .success ∧
    send_for_logout ⟨.ok (), .ok (), .accepted (.ok ()) (.error .timedOut)⟩ =
      .failure IOErr.timedOut :=
  ⟨(send_for_logout_ack_iff ⟨.ok (), .ok (), .accepted (.ok ()) (.ok (1, 1))⟩).1.mpr
     ⟨rfl, rfl, rfl⟩,
   ((send_for_logout_ack_iff
       ⟨.ok (), .ok (), .accepted (.ok ()) (.error .timedOut)⟩).2.1 rfl rfl rfl).1⟩

/-- C6: every run of the `login` task sends `Authenticating` first, it is
not a terminal notification, and something follows it; when
authentication fails the emitted sequence is exactly `Authenticating` then
the terminal `PamError`, with no `FailedGraphicalEnvironment` or
`FailedDesktop` anywhere in the run. -/
theorem login_authenticating_first (env : LoginEnv) :
    (∃ rest, login env = some StatusMessage.authenticating :: rest ∧
      rest ≠ []) ∧
    isTerminalStatus (some StatusMessage.authenticating) = false ∧
    (∀ e, env.openSession = .error e →
      login env = [some StatusMessage.authenticating,
                   some (StatusMessage.pamError e)] ∧
      isTerminalStatus (some (StatusMessage.pamError e)) = true ∧
      some StatusMessage.failedGraphicalEnvironment ∉ login env ∧
      some StatusMessage.failedDesktop ∉ login env) := by
  rcases env with ⟨a, s, d⟩
  refine ⟨?_, rfl, ?_⟩
  · cases a with
    | error e => exact ⟨_, rfl, by simp⟩
    | ok u => exact ⟨_, rfl, by simp⟩
  · intro e he
    cases a with
    | ok u => simp at he
    | error e0 =>
      simp only [Except.error.injEq] at he
      subst he
      refine ⟨rfl, rfl, by simp [login], by simp [login]⟩

/-- Witness for C6: a failing authentication emits exactly
`Authenticating` then `PamError`. -/
theorem login_authenticating_first_witness :
    login ⟨.error "wrong password", .ok (), .ok ()⟩ =
      [some StatusMessage.authenticating,
       some (StatusMessage.pamError "wrong password")] :=
  ((login_authenticating_first ⟨.error "wrong password", .ok (), .ok ()⟩).2.2
    "wrong password" rfl).1

/-- C7: whenever the accept loop stops, teardown runs in the fixed order —
switch the virtual terminal back, kill the desktop, kill the X server,
drop the credentials — and every step is performed whatever the outcomes
of the `chvt` and `kill` calls, whose failures are only logged; and the
loop never fails unrecoverably (its only other exit), so no run skips
teardown after the loop. -/
theorem start_teardown_order (path : String) (tty : Nat) (env : StartEnv)
    (hbind : env.bindInbox = .ok ())
    (hsetup : env.setupX = .ok ())
    (hgui : env.startGuiEnv = .ok ())
    (hstop : blockHandle logoutHandler env.inboxEvents = .ok .stopped) :
    (PostLoginEnvironment.start (.x path) tty env =
      ([SupEvent.setEnvVars, SupEvent.setXdgVars, SupEvent.bindInbox,
        SupEvent.startXServer, SupEvent.startDesktop,
        SupEvent.switchTTY tty env.chvtOk, SupEvent.killDesktop env.killGuiOk,
        SupEvent.killXServer env.killXOk, SupEvent.dropUserInfo],
       .returned (.ok ()))) ∧
    (∀ events : List ConnEvent,
      exceptIsOk (blockHandle logoutHandler events) = true) := by
  refine ⟨?_, blockHandle_isOk logoutHandler⟩
  simp [PostLoginEnvironment.start, hbind, hsetup, hgui, hstop]

/-- The environment for the C7 witness: logout arrives on the first
connection, the terminal switch and the desktop kill both fail. -/
def envStartNormal : StartEnv :=
  { bindInbox := .ok (), setupX := .ok (), startGuiEnv := .ok (),
    inboxEvents := [ConnEvent.conn (.bytes 1 0) (.ok ())],
    chvtOk := false, killGuiOk := false, killXOk := true }

/-- Witness for C7: even with the terminal switch and the desktop kill
failing, every teardown step runs in order and start returns success. -/
theorem start_teardown_order_witness :
    PostLoginEnvironment.start (.x "/etc/lemurs/wms/i3") 2 envStartNormal =
      ([SupEvent.setEnvVars, SupEvent.setXdgVars, SupEvent.bindInbox,
        SupEvent.startXServer, SupEvent.startDesktop,
        SupEvent.switchTTY 2 false, SupEvent.killDesktop false,
        SupEvent.killXServer true, SupEvent.dropUserInfo],
       .returned (.ok ())) :=
  (start_teardown_order "/etc/lemurs/wms/i3" 2 envStartNormal rfl rfl rfl
    (by decide)).1

/-- C8 counterexample: with a consumer handle held and the attempt's
channel closed — `try_recv` reporting `Disconnected` — the poll step
leaves the state unchanged: the consumer handle is not dropped, refuting
the claim that a closed channel makes the loop forget the attempt. -/
theorem poll_disconnected_keeps_receiver :
    pollAuthReceiver ⟨true, some (StatusMessage.pamError "bad")⟩
        .disconnected =
      ⟨true, some (StatusMessage.pamError "bad")⟩ ∧
    (pollAuthReceiver ⟨true, some (StatusMessage.pamError "bad")⟩
        .disconnected).hasAuthReceiver = true := ⟨rfl, rfl⟩

/-- C8 (amended): each iteration polls the channel non-blockingly; when a
new value arrives the displayed status becomes that value and the attempt
is forgotten exactly when the value is the clearing `None`; when the
channel is empty or closed (`try_recv` returns an error, including
`Disconnected`), the state is unchanged and the handle retained. -/
theorem poll_step_semantics (app : AppChannelState) (res : TryRecvResult)
    (h : app.hasAuthReceiver = true) :
    (∀ m, res = .received m →
      pollAuthReceiver app res =
        { hasAuthReceiver := !m.isNone, statusMessage := m }) ∧
    ((res = .empty ∨ res = .disconnected) →
      pollAuthReceiver app res = app) := by
  rcases app with ⟨hr, st⟩
  cases hr with
  | false => exact absurd h (by simp)
  | true =>
    constructor
    · intro m hm
      subst hm
      cases m with
      | none => rfl
      | some v => rfl
    · intro hres
      rcases hres with h1 | h1 <;> subst h1 <;> rfl

/-- Witness for C8 (amended): receiving the clearing `None` drops the
handle and clears the status; an empty poll changes nothing. -/
theorem poll_step_semantics_witness :
    pollAuthReceiver ⟨true, some StatusMessage.loggingIn⟩ (.received none) =
      ⟨false, none⟩ ∧
    pollAuthReceiver ⟨true, some StatusMessage.loggingIn⟩ .empty =
      ⟨true, some StatusMessage.loggingIn⟩ :=
  ⟨(poll_step_semantics ⟨true, some StatusMessage.loggingIn⟩
      (.received none) rfl).1 none rfl,
   (poll_step_semantics ⟨true, some StatusMessage.loggingIn⟩
      .empty rfl).2 (Or.inl rfl)⟩

end Lemurs
